import Mathlib

/-!
# Verification of the Deribit session / audit-logging core

Shallow embedding of the Python modules `deribit_logger.py`, `deribit_auth.py`,
`deribit_trader.py` and `credentials_manager.py`.  Machine-level details kept:

* Python string truthiness (`not s` is true for the empty string) is modelled
  by `truthyStr` / `truthyOptStr`; float/`None` truthiness of the expiry
  timestamp by `truthyOptInt` (timestamps are modelled as integers).
* Python slicing `s[:n]` is modelled by `strTake` (code-point based, as in
  Python).
* The transport (`requests.Session.get` + `raise_for_status` + `.json()`) is an
  external collaborator; it is modelled as an explicit outcome value passed to
  each operation.  Log writes are modelled as lists of the argument records of
  the `log_*` calls an operation performs, in order.
-/

namespace Deribit

/-! ## Python string primitives -/

/-- Python truthiness of a string: `not s` holds exactly for `""`. -/
def truthyStr (s : String) : Bool :=
  !s.data.isEmpty

/-- Python truthiness of an optional string (`None` and `""` are falsy). -/
def truthyOptStr : Option String → Bool
  | .none => false
  | .some s => truthyStr s

/-- Python truthiness of an optional numeric timestamp (`None` and `0` falsy). -/
def truthyOptInt : Option Int → Bool
  | .none => false
  | .some n => n != 0

/-- Python slice `s[:n]` (code-point based, as Python indexes by code point). -/
def strTake (s : String) (n : Nat) : String :=
  ⟨s.data.take n⟩

theorem strData_append (a b : String) : (a ++ b).data = a.data ++ b.data := by
  cases a; cases b; rfl

theorem strTake_data (s : String) (n : Nat) : (strTake s n).data = s.data.take n := rfl

/-- Predicate: `p` is an initial segment of `l` (model of Python `str.startswith`). -/
def listStarts : List Char → List Char → Bool
  | [], _ => true
  | _ :: _, [] => false
  | a :: as, b :: bs => a == b && listStarts as bs

theorem listStarts_append (p t : List Char) : listStarts p (p ++ t) = true := by
  induction p with
  | nil => rfl
  | cons a as ih => simp [listStarts, ih]

/-- Python `p + s` starts with `p` (f-string-built error messages). -/
theorem startsWith_of_append (p s : String) :
    listStarts p.data (p ++ s).data = true := by
  rw [strData_append]; exact listStarts_append p.data s.data

/-- Occurrence: `occursIn p l` — `p` occurs as a contiguous substring of `l`
(occurrence of a secret inside a serialized log field). -/
def occursIn (p l : List Char) : Prop :=
  ∃ u v, u ++ p ++ v = l

/-- Executable substring search mirroring `occursIn`. -/
def occursInB (p : List Char) : List Char → Bool
  | [] => listStarts p []
  | l@(_ :: rest) => listStarts p l || occursInB p rest

theorem listStarts_iff (p l : List Char) :
    listStarts p l = true ↔ ∃ t, p ++ t = l := by
  induction p generalizing l with
  | nil => simp [listStarts]
  | cons a as ih =>
    cases l with
    | nil => simp [listStarts]
    | cons b bs =>
      simp only [listStarts, Bool.and_eq_true, beq_iff_eq, ih, List.cons_append,
        List.cons.injEq]
      constructor
      · rintro ⟨rfl, t, rfl⟩; exact ⟨t, rfl, rfl⟩
      · rintro ⟨t, rfl, rfl⟩; exact ⟨rfl, t, rfl⟩

theorem occursInB_iff (p l : List Char) : occursInB p l = true ↔ occursIn p l := by
  induction l with
  | nil =>
    simp only [occursInB, listStarts_iff, occursIn]
    constructor
    · rintro ⟨t, ht⟩
      exact ⟨[], t, by simpa using ht⟩
    · rintro ⟨u, v, h⟩
      obtain ⟨h1, h3⟩ := List.append_eq_nil.mp h
      obtain ⟨hu, hp⟩ := List.append_eq_nil.mp h1
      exact ⟨[], by simp [hp]⟩
  | cons b bs ih =>
    simp only [occursInB, Bool.or_eq_true, listStarts_iff, ih, occursIn]
    constructor
    · rintro (⟨t, ht⟩ | ⟨u, v, h⟩)
      · exact ⟨[], t, by simpa using ht⟩
      · exact ⟨b :: u, v, by simp [← h]⟩
    · rintro ⟨u, v, h⟩
      cases u with
      | nil => exact .inl ⟨v, by simpa using h⟩
      | cons x xs =>
        right
        simp only [List.cons_append, List.cons.injEq] at h
        exact ⟨xs, v, h.2⟩

instance (p l : List Char) : Decidable (occursIn p l) :=
  decidable_of_iff (occursInB p l = true) (occursInB_iff p l)

/-! ## Python values (parsed JSON), truthiness and string conversion -/

/-- A parsed JSON / Python value, as handled by the logger and dispatcher. -/
inductive PyVal where
  | none
  | bool (b : Bool)
  | int (n : Int)
  | str (s : String)
  | list (xs : List PyVal)
  | dict (kvs : List (String × PyVal))

/-- Python truthiness of a value (`None`, `False`, `0`, `""`, `[]`, `{}` falsy). -/
def pyTruthy : PyVal → Bool
  | .none => false
  | .bool b => b
  | .int n => n != 0
  | .str s => truthyStr s
  | .list xs => !xs.isEmpty
  | .dict kvs => !kvs.isEmpty

mutual

/-- Python `repr` of a value (used by f-string interpolation of containers). -/
def pyRepr : PyVal → String
  | .none => "None"
  | .bool true => "True"
  | .bool false => "False"
  | .int n => toString n
  | .str s => "\x27" ++ s ++ "\x27"
  | .list xs => "[" ++ pyReprList xs ++ "]"
  | .dict kvs => "\x7b" ++ pyReprDict kvs ++ "\x7d"

def pyReprList : List PyVal → String
  | [] => ""
  | [x] => pyRepr x
  | x :: xs => pyRepr x ++ ", " ++ pyReprList xs

def pyReprDict : List (String × PyVal) → String
  | [] => ""
  | [(k, x)] => "\x27" ++ k ++ "\x27: " ++ pyRepr x
  | (k, x) :: xs => "\x27" ++ k ++ "\x27: " ++ pyRepr x ++ ", " ++ pyReprDict xs

end

/-- Python `str` of a value (as used by f-strings: strings are unquoted). -/
def pyStr : PyVal → String
  | .str s => s
  | v => pyRepr v

/-- Python `d.get(k)` on a dict value (`None` when the key is absent or not a dict). -/
def pyGet (v : PyVal) (k : String) : Option PyVal :=
  match v with
  | .dict kvs => (kvs.find? (fun kv => kv.1 == k)).map Prod.snd
  | _ => Option.none

/-! ## AuditLogger (`deribit_logger.py`)

Each `log_*` method is modelled as a pure entry-construction function from an
argument record; `_now_iso` / `_new_log_id` are ambient inputs.  The
file-system append (`_write_entry`) is outside the embedding; the claims are
about the entry contents. -/

/-- Result of `DeribitLogger.format_error`. -/
structure ErrorDict where
  error_code : Option Int := Option.none
  error_message : Option String := Option.none
  exception_type : Option String := Option.none
  exception_message : Option String := Option.none
  http_status : Option Int := Option.none
deriving DecidableEq

/-- Model of `DeribitLogger.format_error`: a pure mapping to a structured error dict.
The exception argument is modelled by its type name and message. -/
def format_error (exception : Option (String × String) := Option.none)
    (error_code : Option Int := Option.none)
    (error_message : Option String := Option.none)
    (http_status : Option Int := Option.none) : ErrorDict :=
  { error_code := error_code
    error_message := error_message
    exception_type := exception.map Prod.fst
    exception_message := exception.map Prod.snd
    http_status := http_status }

/-- Model of `DeribitLogger.mask_client_id`. -/
def mask_client_id : Option String → Option String
  | Option.none => Option.none
  | Option.some c =>
    if !truthyStr c then Option.none
    else if c.length ≤ 4 then Option.some "****"
    else Option.some (strTake c 4 ++ "****")

/-- Model of `DeribitLogger.mask_token`. -/
def mask_token : Option String → Option String
  | Option.none => Option.none
  | Option.some t =>
    if !truthyStr t then Option.none
    else Option.some (strTake t 10 ++ "...")

/-- The keyword arguments of a `DeribitLogger.log_auth` call
(defaults as in the Python signature). -/
structure AuthLogInput where
  event : String
  client_id : Option String := Option.none
  method : Option String := Option.none
  scope_requested : Option String := Option.none
  scope_granted : Option String := Option.none
  token_expires_in : Option Int := Option.none
  access_token : Option String := Option.none
  credentials_source : Option String := Option.none
  status : String := "success"
  latency_ms : Int := 0
  error : Option ErrorDict := Option.none
  environment : String := "test"
  base_url : String := ""
  api_method : Option String := Option.none
deriving DecidableEq

/-- The `auth` sub-object of an auth log entry. -/
structure AuthPayload where
  method : Option String
  client_id : Option String
  scope_requested : Option String
  scope_granted : Option String
  token_expires_in : Option Int
  token_masked : Option String   -- the `token_prefix` key of the Python dict
deriving DecidableEq

/-- The `context` sub-object of an auth log entry. -/
structure AuthContext where
  environment : String
  base_url : String
  api_method : Option String
  credentials_source : Option String
deriving DecidableEq

/-- An entry written to `auth_YYYYMMDD.jsonl`. -/
structure AuthLogEntry where
  timestamp : String
  log_id : String
  event : String
  status : String
  latency_ms : Int
  auth : AuthPayload
  error : Option ErrorDict
  context : AuthContext
deriving DecidableEq

/-- Model of `DeribitLogger.log_auth`: builds the entry that is serialized and
appended; `tsIso` and `logId` model `_now_iso()` / `_new_log_id()`. -/
def log_auth (tsIso logId : String) (i : AuthLogInput) : AuthLogEntry :=
  { timestamp := tsIso
    log_id := logId
    event := i.event
    status := i.status
    latency_ms := i.latency_ms
    auth :=
      { method := i.method
        client_id := mask_client_id i.client_id
        scope_requested := i.scope_requested
        scope_granted := i.scope_granted
        token_expires_in := i.token_expires_in
        token_masked := mask_token i.access_token }
    error := i.error
    context :=
      { environment := i.environment
        base_url := i.base_url
        api_method := i.api_method
        credentials_source := i.credentials_source } }

def optToList : Option String → List String
  | Option.none => []
  | Option.some s => [s]

/-- The strings embedded in the serialization of an error dict. -/
def errorStrings : Option ErrorDict → List String
  | Option.none => []
  | Option.some d =>
    optToList d.error_message ++ optToList d.exception_type ++
      optToList d.exception_message

/-- All string values embedded in the serialized auth entry. -/
def authEntryStrings (e : AuthLogEntry) : List String :=
  [e.timestamp, e.log_id, e.event, e.status] ++
    optToList e.auth.method ++ optToList e.auth.client_id ++
    optToList e.auth.scope_requested ++ optToList e.auth.scope_granted ++
    optToList e.auth.token_masked ++ errorStrings e.error ++
    [e.context.environment, e.context.base_url] ++
    optToList e.context.api_method ++ optToList e.context.credentials_source

/-- The raw string inputs of a `log_auth` call other than the client id and
access token (which reach the entry only through the mask functions). -/
def authInputStrings (tsIso logId : String) (i : AuthLogInput) : List String :=
  [tsIso, logId, i.event, i.status] ++
    optToList i.method ++ optToList i.scope_requested ++
    optToList i.scope_granted ++ errorStrings i.error ++
    [i.environment, i.base_url] ++
    optToList i.api_method ++ optToList i.credentials_source

/-- The keyword arguments of a `DeribitLogger.log_trade` call. -/
structure TradeLogInput where
  action : String
  request_params : PyVal
  api_method : String
  response : Option PyVal := Option.none
  error : Option ErrorDict := Option.none
  latency_ms : Int := 0
  environment : String := "test"
  base_url : String := ""

/-- The normalized order summary extracted by `log_trade` on success
(`response.get("order", response)` tolerates both nestings). -/
structure TradeSummary where
  order_id : Option PyVal
  order_state : Option PyVal
  direction : Option PyVal
  filled_amount : Option PyVal
  average_price : Option PyVal
  commission : Option PyVal
  raw_response : PyVal

/-- An entry written to `trades_YYYYMMDD.jsonl`. -/
structure TradeLogEntry where
  timestamp : String
  log_id : String
  action : String
  status : String
  latency_ms : Int
  request : PyVal
  response : Option TradeSummary
  error : Option ErrorDict
  environment : String
  base_url : String
  api_method : String

/-- Model of `DeribitLogger.log_trade`: status is `"error"` iff an error dict was
passed (a `format_error` dict always has keys, hence is truthy). -/
def log_trade (tsIso logId : String) (i : TradeLogInput) : TradeLogEntry :=
  let status := if i.error.isSome then "error" else "success"
  let summary : Option TradeSummary :=
    match i.response with
    | Option.none => Option.none
    | Option.some resp =>
      if pyTruthy resp then
        let order := match pyGet resp "order" with
          | Option.some o => o
          | Option.none => resp
        Option.some
          { order_id := pyGet order "order_id"
            order_state := pyGet order "order_state"
            direction := pyGet order "direction"
            filled_amount := pyGet order "filled_amount"
            average_price := pyGet order "average_price"
            commission := pyGet order "commission"
            raw_response := resp }
      else Option.none
  { timestamp := tsIso
    log_id := logId
    action := i.action
    status := status
    latency_ms := i.latency_ms
    request := i.request_params
    response := summary
    error := i.error
    environment := i.environment
    base_url := i.base_url
    api_method := i.api_method }

/-- The keyword arguments of a `DeribitLogger.log_api` call. -/
structure ApiLogInput where
  event : String
  api_method : String
  request_params : PyVal
  response : Option PyVal := Option.none
  error : Option ErrorDict := Option.none
  latency_ms : Int := 0
  environment : String := "test"
  base_url : String := ""

/-- The response summary recorded by `log_api`. -/
structure ApiSummary where
  result_count : Nat
  raw_response : PyVal

/-- An entry written to `api_YYYYMMDD.jsonl`. -/
structure ApiLogEntry where
  timestamp : String
  log_id : String
  event : String
  status : String
  latency_ms : Int
  api_method : String
  params : PyVal
  response : Option ApiSummary
  error : Option ErrorDict
  environment : String
  base_url : String

/-- Model of `DeribitLogger.log_api`: a truthy response is summarized with
`result_count = len(response)` for lists and `1` otherwise; a falsy response
(including `None`, `[]`, `{}`) produces no summary at all. -/
def log_api (tsIso logId : String) (i : ApiLogInput) : ApiLogEntry :=
  let status := if i.error.isSome then "error" else "success"
  let summary : Option ApiSummary :=
    match i.response with
    | Option.none => Option.none
    | Option.some resp =>
      if pyTruthy resp then
        match resp with
        | .list xs => Option.some { result_count := xs.length, raw_response := resp }
        | _ => Option.some { result_count := 1, raw_response := resp }
      else Option.none
  { timestamp := tsIso
    log_id := logId
    event := i.event
    status := status
    latency_ms := i.latency_ms
    api_method := i.api_method
    params := i.request_params
    response := summary
    error := i.error
    environment := i.environment
    base_url := i.base_url }

/-! ## SignatureEngine (`hmac` / `hashlib` collaborators of `_calculate_signature`)

`hashlib.sha256` and `hmac.new` are the Python standard library; they are
embedded as the actual FIPS 180-4 SHA-256 and RFC 2104 HMAC over byte lists.
Bytes and 32-bit words are `Nat` with explicit `% 2^32` where overflow
matters. -/

/-- UTF-8 encoding of one code point (`str.encode('utf-8')`). -/
def utf8Char (c : Char) : List Nat :=
  let n := c.toNat
  if n < 0x80 then [n]
  else if n < 0x800 then [0xC0 + n / 0x40, 0x80 + n % 0x40]
  else if n < 0x10000 then
    [0xE0 + n / 0x1000, 0x80 + (n / 0x40) % 0x40, 0x80 + n % 0x40]
  else
    [0xF0 + n / 0x40000, 0x80 + (n / 0x1000) % 0x40, 0x80 + (n / 0x40) % 0x40,
      0x80 + n % 0x40]

/-- UTF-8 encoding of a string as a byte list. -/
def utf8Encode (s : String) : List Nat :=
  s.data.foldr (fun c acc => utf8Char c ++ acc) []

/-- Addition modulo `2^32`. -/
def wadd (a b : Nat) : Nat := (a + b) % 4294967296

/-- Right rotation of a 32-bit word. -/
def rotr (n x : Nat) : Nat := ((x >>> n) ||| (x <<< (32 - n))) % 4294967296

/-- Bitwise complement of a 32-bit word. -/
def wnot (a : Nat) : Nat := a ^^^ 0xFFFFFFFF

/-- The SHA-256 round constants (FIPS 180-4, § 4.2.2), in decimal. -/
def shaK : List Nat :=
  [1116352408, 1899447441, 3049323471, 3921009573, 961987163,
   1508970993, 2453635748, 2870763221, 3624381080, 310598401,
   607225278, 1426881987, 1925078388, 2162078206, 2614888103,
   3248222580, 3835390401, 4022224774, 264347078, 604807628,
   770255983, 1249150122, 1555081692, 1996064986, 2554220882,
   2821834349, 2952996808, 3210313671, 3336571891, 3584528711,
   113926993, 338241895, 666307205, 773529912, 1294757372,
   1396182291, 1695183700, 1986661051, 2177026350, 2456956037,
   2730485921, 2820302411, 3259730800, 3345764771, 3516065817,
   3600352804, 4094571909, 275423344, 430227734, 506948616,
   659060556, 883997877, 958139571, 1322822218, 1537002063,
   1747873779, 1955562222, 2024104815, 2227730452, 2361852424,
   2428436474, 2756734187, 3204031479, 3329325298]

/-- Big-endian byte representation of `n` on `k` bytes. -/
def toBytesBE (k : Nat) (n : Nat) : List Nat :=
  (List.range k).map (fun i => (n >>> (8 * (k - 1 - i))) % 256)

/-- SHA-256 message padding: `0x80`, zeros, 64-bit big-endian bit length. -/
def shaPad (msg : List Nat) : List Nat :=
  let padZeros := (64 - (msg.length + 9) % 64) % 64
  msg ++ [0x80] ++ List.replicate padZeros 0 ++ toBytesBE 8 (msg.length * 8)

/-- Split a byte list into 64-byte blocks. -/
def chunks64 : List Nat → List (List Nat)
  | [] => []
  | l@(_ :: _) => l.take 64 :: chunks64 (l.drop 64)
termination_by l => l.length
decreasing_by simp_all [List.length_drop]; omega

/-- Big-endian 32-bit words from a byte list. -/
def bytesToWords : List Nat → List Nat
  | b0 :: b1 :: b2 :: b3 :: rest =>
    (((b0 * 256 + b1) * 256 + b2) * 256 + b3) :: bytesToWords rest
  | _ => []

/-- Extend the 16 message words to the 64-entry schedule. -/
def shaSchedule (w16 : List Nat) : Array Nat :=
  (List.range 48).foldl
    (fun w i =>
      let t := i + 16
      let x := w[t - 15]!
      let y := w[t - 2]!
      let s0 := (rotr 7 x) ^^^ (rotr 18 x) ^^^ (x >>> 3)
      let s1 := (rotr 17 y) ^^^ (rotr 19 y) ^^^ (y >>> 10)
      w.push (wadd (wadd (w[t - 16]! ) s0) (wadd (w[t - 7]! ) s1)))
    w16.toArray

/-- The eight working variables of the compression function. -/
structure Hash8 where
  a : Nat
  b : Nat
  c : Nat
  d : Nat
  e : Nat
  f : Nat
  g : Nat
  hh : Nat

/-- One SHA-256 round. -/
def shaRound (st : Hash8) (ki wi : Nat) : Hash8 :=
  let s1 := (rotr 6 st.e) ^^^ (rotr 11 st.e) ^^^ (rotr 25 st.e)
  let ch := (st.e &&& st.f) ^^^ ((wnot st.e) &&& st.g)
  let temp1 := wadd (wadd (wadd st.hh s1) (wadd ch ki)) wi
  let s0 := (rotr 2 st.a) ^^^ (rotr 13 st.a) ^^^ (rotr 22 st.a)
  let maj := (st.a &&& st.b) ^^^ (st.a &&& st.c) ^^^ (st.b &&& st.c)
  let temp2 := wadd s0 maj
  { a := wadd temp1 temp2, b := st.a, c := st.b, d := st.c,
    e := wadd st.d temp1, f := st.e, g := st.f, hh := st.g }

/-- Compress one 64-byte block into the running hash. -/
def shaCompress (hs : Hash8) (block : List Nat) : Hash8 :=
  let w := shaSchedule (bytesToWords block)
  let st := (List.range 64).foldl (fun st i => shaRound st (shaK[i]!) (w[i]!)) hs
  { a := wadd hs.a st.a, b := wadd hs.b st.b, c := wadd hs.c st.c,
    d := wadd hs.d st.d, e := wadd hs.e st.e, f := wadd hs.f st.f,
    g := wadd hs.g st.g, hh := wadd hs.hh st.hh }

/-- SHA-256 of a byte list, as a 32-byte digest (`hashlib.sha256`). -/
def sha256 (msg : List Nat) : List Nat :=
  let h0 : Hash8 :=
    { a := 1779033703, b := 3144134277, c := 1013904242, d := 2773480762,
      e := 1359893119, f := 2600822924, g := 528734635, hh := 1541459225 }
  let hf := (chunks64 (shaPad msg)).foldl shaCompress h0
  toBytesBE 4 hf.a ++ toBytesBE 4 hf.b ++ toBytesBE 4 hf.c ++ toBytesBE 4 hf.d ++
    toBytesBE 4 hf.e ++ toBytesBE 4 hf.f ++ toBytesBE 4 hf.g ++ toBytesBE 4 hf.hh

/-- HMAC-SHA256 (`hmac.new(key, msg, hashlib.sha256)`), RFC 2104. -/
def hmacSha256 (key msg : List Nat) : List Nat :=
  let k0 := if 64 < key.length then sha256 key else key
  let k := k0 ++ List.replicate (64 - k0.length) 0
  let ipadded := k.map (fun b => b ^^^ 0x36)
  let opadded := k.map (fun b => b ^^^ 0x5c)
  sha256 (opadded ++ sha256 (ipadded ++ msg))

/-- One lowercase hex digit. -/
def hexDigit (n : Nat) : Char :=
  if n < 10 then Char.ofNat (48 + n) else Char.ofNat (87 + n)

/-- Lowercase hex string of a byte list (`.hexdigest()`). -/
def hexDigest (bs : List Nat) : String :=
  ⟨bs.foldr (fun b acc => hexDigit (b / 16) :: hexDigit (b % 16) :: acc) []⟩

/-- The string to sign: `f"{timestamp}\n{nonce}\n{data}"`. -/
def string_to_sign (timestamp : Int) (nonce data : String) : String :=
  toString timestamp ++ "\n" ++ nonce ++ "\n" ++ data

/-- Model of `DeribitAuth._calculate_signature`. -/
def calculate_signature (client_secret : String) (timestamp : Int)
    (nonce : String) (data : String := "") : String :=
  hexDigest (hmacSha256 (utf8Encode client_secret)
    (utf8Encode (string_to_sign timestamp nonce data)))

/-- Split a character list at newline characters. -/
def splitNlAux : List Char → List Char → List (List Char)
  | [], acc => [acc.reverse]
  | c :: rest, acc =>
    if c = '\n' then acc.reverse :: splitNlAux rest []
    else splitNlAux rest (c :: acc)

/-- The newline-separated fields of a string. -/
def splitNl (s : String) : List (List Char) := splitNlAux s.data []

/-! ## SessionManager (`deribit_auth.py`)

Each operation takes the current time (`time.time()`, modelled as an integer
number of seconds) and the outcome of the single transport round trip it
performs, and returns the updated session, its result or raised exception,
the `log_auth` calls it made (in order) and the request parameter sets it
sent.  Latency measurement is wall-clock and is modelled as `0`. -/

/-- A raised Python exception: type name, message, and the
`getattr(getattr(e, "response", None), "status_code", None)` value. -/
structure PyExn where
  ty : String
  msg : String
  respStatus : Option Int
deriving DecidableEq

/-- The state of a `DeribitAuth` instance. -/
structure Session where
  client_id : String
  client_secret : String
  test_mode : Bool
  hasLogger : Bool
  credentials_source : Option String
  access_token : Option String
  refresh_token : Option String
  token_expiry : Option Int
  scope : Option String
deriving DecidableEq

/-- Model of `DeribitAuth.__init__` after successful credential resolution. -/
def initSession (client_id client_secret : String) (test_mode hasLogger : Bool)
    (credentials_source : Option String) : Session :=
  { client_id := client_id
    client_secret := client_secret
    test_mode := test_mode
    hasLogger := hasLogger
    credentials_source := credentials_source
    access_token := Option.none
    refresh_token := Option.none
    token_expiry := Option.none
    scope := Option.none }

def Session.base_url (s : Session) : String :=
  if s.test_mode then "https://test.deribit.com" else "https://www.deribit.com"

def Session.environment (s : Session) : String :=
  if s.test_mode then "test" else "production"

/-- Model of `DeribitAuth.is_token_valid` (the `getD` is only reached when
`token_expiry` is a truthy `some`). -/
def is_token_valid (s : Session) (now : Int) (buffer_seconds : Int := 60) : Bool :=
  if !truthyOptStr s.access_token || !truthyOptInt s.token_expiry then
    false
  else
    decide (now < s.token_expiry.getD 0 - buffer_seconds)

/-- The `result` object of a successful auth/refresh response. -/
structure AuthGrant where
  access_token : String
  refresh_token : String
  expires_in : Int
  scope : String
deriving DecidableEq

/-- The parsed `error` object of an API-level auth error
(`result.get("error", {})` then `.get("code")` / `.get("message")`). -/
structure ApiErrObj where
  code : Option Int
  message : Option String
deriving DecidableEq

/-- The parsed body of an auth endpoint response. -/
inductive AuthBody where
  | withResult (r : AuthGrant)
  | withoutResult (err : Option ApiErrObj)
deriving DecidableEq

/-- Outcome of the auth-endpoint round trip: either the request or
`raise_for_status()` or `.json()` raised, or a body was parsed. -/
inductive AuthTransport where
  | raised (ty msg : String) (respStatus : Option Int)
  | parsed (httpStatus : Int) (body : AuthBody)
deriving DecidableEq

/-- A request parameter set sent to `/api/v2/public/auth`. -/
inductive AuthReqParams where
  | credentials (client_id client_secret scope : String)
  | signature (client_id : String) (timestamp : Int)
    (nonce data sigHex scope : String)
  | refreshGrant (refresh_token : String)
deriving DecidableEq

/-- Result of one session operation. -/
structure OpResult (α : Type) where
  session : Session
  outcome : Except PyExn α
  logs : List AuthLogInput
  requests : List AuthReqParams

/-- Serialization of the body interpolated into `f"...failed: {result}"`. -/
def withoutResultRepr : Option ApiErrObj → String
  | Option.none => "\x7b\x7d"
  | Option.some e =>
    "\x7b\x27error\x27: \x7b\x27code\x27: " ++
      (match e.code with | Option.none => "None" | Option.some n => toString n) ++
      ", \x27message\x27: " ++
      (match e.message with
        | Option.none => "None"
        | Option.some m => "\x27" ++ m ++ "\x27") ++ "\x7d\x7d"

/-- Common shape of `authenticate_credentials` / `authenticate_signature`
(they differ only in request parameters, event tag and method tag).
`failMsgHead` is `"Authentication failed: "`. -/
def authCommon (s : Session) (now : Int) (scope : String)
    (req : AuthReqParams) (eventTag methodTag : String)
    (t : AuthTransport) : OpResult AuthGrant :=
  match t with
  | .parsed _ (.withResult r) =>
    let s' := { s with
      access_token := Option.some r.access_token
      refresh_token := Option.some r.refresh_token
      token_expiry := Option.some (now + r.expires_in)
      scope := Option.some r.scope }
    let logs := if s.hasLogger then
      [{ event := eventTag
         client_id := Option.some s.client_id
         method := Option.some methodTag
         scope_requested := Option.some scope
         scope_granted := Option.some r.scope
         token_expires_in := Option.some r.expires_in
         access_token := Option.some r.access_token
         credentials_source := s.credentials_source
         status := "success"
         environment := s.environment
         base_url := s.base_url
         api_method := Option.some "public/auth" }] else []
    { session := s', outcome := .ok r, logs := logs, requests := [req] }
  | .parsed httpStatus (.withoutResult err) =>
    -- `error = Exception(f"Authentication failed: {result}")`, logged with the
    -- API error details, then raised.  The raise is caught by the surrounding
    -- `except`, whose guard `not isinstance(e, Exception.__class__)` compares
    -- against the metaclass `type` and is therefore always true, so the same
    -- failure is logged a second time before the re-raise.
    let emsg := "Authentication failed: " ++ withoutResultRepr err
    let e : PyExn := { ty := "Exception", msg := emsg, respStatus := Option.none }
    let apiErr := err.getD { code := Option.none, message := Option.none }
    let failBase : AuthLogInput :=
      { event := "auth_failure"
        client_id := Option.some s.client_id
        method := Option.some methodTag
        scope_requested := Option.some scope
        credentials_source := s.credentials_source
        status := "error"
        environment := s.environment
        base_url := s.base_url
        api_method := Option.some "public/auth" }
    let logs1 := if s.hasLogger then
      [{ failBase with error := Option.some (format_error
          (Option.some (e.ty, e.msg)) apiErr.code apiErr.message
          (Option.some httpStatus)) }] else []
    let logs2 := if s.hasLogger then
      [{ failBase with error := Option.some (format_error
          (Option.some (e.ty, e.msg)) Option.none Option.none e.respStatus) }]
      else []
    { session := s, outcome := .error e, logs := logs1 ++ logs2,
      requests := [req] }
  | .raised ty msg respStatus =>
    let e : PyExn := { ty := ty, msg := msg, respStatus := respStatus }
    let logs := if s.hasLogger then
      [{ event := "auth_failure"
         client_id := Option.some s.client_id
         method := Option.some methodTag
         scope_requested := Option.some scope
         credentials_source := s.credentials_source
         status := "error"
         error := Option.some (format_error (Option.some (ty, msg))
           Option.none Option.none respStatus)
         environment := s.environment
         base_url := s.base_url
         api_method := Option.some "public/auth" }] else []
    { session := s, outcome := .error e, logs := logs, requests := [req] }

/-- Model of `DeribitAuth.authenticate_credentials`. -/
def authenticate_credentials (s : Session) (now : Int) (t : AuthTransport)
    (scope : String := "session:default") : OpResult AuthGrant :=
  authCommon s now scope
    (.credentials s.client_id s.client_secret scope)
    "auth_credentials" "client_credentials" t

/-- Model of `DeribitAuth.authenticate_signature`; `nonce` models `_generate_nonce()`
and the millisecond timestamp is `int(time.time() * 1000)`. -/
def authenticate_signature (s : Session) (now : Int) (nonce : String)
    (t : AuthTransport) (scope : String := "session:default")
    (data : String := "") : OpResult AuthGrant :=
  let timestamp := now * 1000
  let sigHex := calculate_signature s.client_secret timestamp nonce data
  authCommon s now scope
    (.signature s.client_id timestamp nonce data sigHex scope)
    "auth_signature" "client_signature" t

/-- Model of `DeribitAuth.refresh_access_token`.  With no (truthy) refresh token it
raises before building the request: no transport call, no state change, no
log.  Note the refresh success path does not update `scope`, and the failure
paths share the always-true `except`-guard noted in `authCommon`. -/
def refresh_access_token (s : Session) (now : Int) (t : AuthTransport) :
    OpResult AuthGrant :=
  if !truthyOptStr s.refresh_token then
    { session := s
      outcome := .error { ty := "Exception"
                          msg := "No refresh token available. Authenticate first."
                          respStatus := Option.none }
      logs := []
      requests := [] }
  else
    let req : AuthReqParams := .refreshGrant (s.refresh_token.getD "")
    match t with
    | .parsed _ (.withResult r) =>
      let s' := { s with
        access_token := Option.some r.access_token
        refresh_token := Option.some r.refresh_token
        token_expiry := Option.some (now + r.expires_in) }
      let logs := if s.hasLogger then
        [{ event := "token_refresh"
           client_id := Option.some s.client_id
           method := Option.some "refresh_token"
           token_expires_in := Option.some r.expires_in
           access_token := Option.some r.access_token
           credentials_source := s.credentials_source
           status := "success"
           environment := s.environment
           base_url := s.base_url
           api_method := Option.some "public/auth" }] else []
      { session := s', outcome := .ok r, logs := logs, requests := [req] }
    | .parsed httpStatus (.withoutResult err) =>
      let emsg := "Token refresh failed: " ++ withoutResultRepr err
      let e : PyExn := { ty := "Exception", msg := emsg, respStatus := Option.none }
      let apiErr := err.getD { code := Option.none, message := Option.none }
      let failBase : AuthLogInput :=
        { event := "token_refresh"
          client_id := Option.some s.client_id
          method := Option.some "refresh_token"
          credentials_source := s.credentials_source
          status := "error"
          environment := s.environment
          base_url := s.base_url
          api_method := Option.some "public/auth" }
      let logs1 := if s.hasLogger then
        [{ failBase with error := Option.some (format_error
            (Option.some (e.ty, e.msg)) apiErr.code apiErr.message
            (Option.some httpStatus)) }] else []
      let logs2 := if s.hasLogger then
        [{ failBase with error := Option.some (format_error
            (Option.some (e.ty, e.msg)) Option.none Option.none e.respStatus) }]
        else []
      { session := s, outcome := .error e, logs := logs1 ++ logs2,
        requests := [req] }
    | .raised ty msg respStatus =>
      let e : PyExn := { ty := ty, msg := msg, respStatus := respStatus }
      let logs := if s.hasLogger then
        [{ event := "token_refresh"
           client_id := Option.some s.client_id
           method := Option.some "refresh_token"
           credentials_source := s.credentials_source
           status := "error"
           error := Option.some (format_error (Option.some (ty, msg))
             Option.none Option.none respStatus)
           environment := s.environment
           base_url := s.base_url
           api_method := Option.some "public/auth" }] else []
      { session := s, outcome := .error e, logs := logs, requests := [req] }

/-- Model of `DeribitAuth.get_headers`.  `t` is consumed only if a refresh is
triggered.  A stale (or absent) token with a refresh token present logs
`token_expired` and refreshes synchronously; without a refresh token it
raises.  The headers are built from the session state after any refresh
(`f"Bearer {self.access_token}"`; `None` renders as `"None"`). -/
def get_headers (s : Session) (now : Int) (t : AuthTransport) :
    OpResult (List (String × String)) :=
  let mkHeaders := fun (tok : Option String) =>
    [("Authorization", "Bearer " ++ (match tok with
        | Option.none => "None"
        | Option.some v => v)),
     ("Content-Type", "application/json")]
  if is_token_valid s now then
    { session := s, outcome := .ok (mkHeaders s.access_token), logs := [],
      requests := [] }
  else if truthyOptStr s.refresh_token then
    let expiredLog := if s.hasLogger then
      [({ event := "token_expired"
          client_id := Option.some s.client_id
          access_token := s.access_token
          environment := s.environment
          base_url := s.base_url } : AuthLogInput)] else []
    let r := refresh_access_token s now t
    match r.outcome with
    | .error e =>
      { session := r.session, outcome := .error e,
        logs := expiredLog ++ r.logs, requests := r.requests }
    | .ok _ =>
      { session := r.session, outcome := .ok (mkHeaders r.session.access_token),
        logs := expiredLog ++ r.logs, requests := r.requests }
  else
    { session := s
      outcome := .error { ty := "Exception"
                          msg := "Token expired and no refresh token available"
                          respStatus := Option.none }
      logs := [], requests := [] }

/-! ## RequestDispatcher (`deribit_trader.py`) -/

/-- The set `_TRADE_METHODS`: API methods logged to the trades stream. -/
def tradeMethods : List String :=
  ["private/buy", "private/sell", "private/cancel", "private/edit",
   "private/close_position", "private/cancel_all",
   "private/cancel_all_by_currency", "private/cancel_all_by_instrument"]

/-- Lookup `_API_EVENT_NAMES.get(method, method)`. -/
def apiEventName (m : String) : String :=
  match (([("private/get_account_summary", "account_summary"),
    ("private/get_positions", "get_positions"),
    ("private/get_open_orders_by_currency", "get_open_orders"),
    ("private/get_open_orders_by_instrument", "get_open_orders"),
    ("private/get_subaccounts", "get_subaccounts"),
    ("private/get_user_trades_by_currency", "get_user_trades"),
    ("private/get_user_trades_by_instrument", "get_user_trades"),
    ("public/get_instruments", "get_instruments"),
    ("public/get_order_book", "get_order_book"),
    ("public/ticker", "get_ticker")] : List (String × String)).find?
      (fun kv => kv.1 == m)) with
  | Option.some kv => kv.2
  | Option.none => m

/-- Lookup `_TRADE_ACTION_NAMES.get(method, method)`. -/
def tradeActionName (m : String) : String :=
  match (([("private/buy", "buy"), ("private/sell", "sell"),
    ("private/cancel", "cancel"), ("private/edit", "edit"),
    ("private/close_position", "close_position"),
    ("private/cancel_all", "cancel_all"),
    ("private/cancel_all_by_currency", "cancel_all"),
    ("private/cancel_all_by_instrument", "cancel_all")] :
      List (String × String)).find? (fun kv => kv.1 == m)) with
  | Option.some kv => kv.2
  | Option.none => m

/-- The parsed body of a generic API response:
`"result" in result` / `elif "error" in result` / neither. -/
inductive ReqBody where
  | withResult (v : PyVal)
  | withError (e : PyVal)
  | neither (raw : PyVal)

/-- Outcome of the dispatch round trip. -/
inductive ApiTransport where
  | raised (ty msg : String) (respStatus : Option Int)
  | parsed (httpStatus : Int) (body : ReqBody)

/-- Result of `DeribitTrader._make_request`. -/
structure TraderResult where
  session : Session
  outcome : Except PyExn PyVal
  authLogs : List AuthLogInput
  tradeLogs : List TradeLogInput
  apiLogs : List ApiLogInput

/-- Model of `DeribitTrader._make_request`.  `hdrT` is the transport outcome consumed
by `get_headers` if the method is private and a refresh is triggered; `t` is
the dispatch round trip itself.  The `except` clause logs transport errors
only when `str(e)` does not start with `"API Error:"` or
`"Unexpected response:"`, which suppresses a second entry for API-level
errors already logged. -/
def _make_request (s : Session) (method : String) (params : PyVal)
    (now : Int) (hdrT : AuthTransport) (t : ApiTransport) : TraderResult :=
  let hdr : OpResult (List (String × String)) :=
    if listStarts "private/".data method.data then get_headers s now hdrT
    else { session := s, outcome := .ok [], logs := [], requests := [] }
  match hdr.outcome with
  | .error e =>
    -- `get_headers` raised before the `try` block: no dispatcher logging.
    { session := hdr.session, outcome := .error e, authLogs := hdr.logs,
      tradeLogs := [], apiLogs := [] }
  | .ok _ =>
    let s := hdr.session
    let is_trade := tradeMethods.contains method
    match t with
    | .parsed _ (.withResult v) =>
      let tradeLogs := if s.hasLogger && is_trade then
        [{ action := tradeActionName method
           request_params := params
           api_method := method
           response := Option.some v
           environment := s.environment
           base_url := s.base_url } ] else []
      let apiLogs := if s.hasLogger && !is_trade then
        [{ event := apiEventName method
           api_method := method
           request_params := params
           response := Option.some v
           environment := s.environment
           base_url := s.base_url } ] else []
      { session := s, outcome := .ok v, authLogs := hdr.logs,
        tradeLogs := tradeLogs, apiLogs := apiLogs }
    | .parsed httpStatus (.withError ev) =>
      let emsg := "API Error: " ++ pyStr ev
      let e : PyExn := { ty := "Exception", msg := emsg, respStatus := Option.none }
      let errDict := format_error (Option.some (e.ty, e.msg))
        (match ev with
          | .dict _ => match pyGet ev "code" with
            | Option.some (.int n) => Option.some n
            | _ => Option.none
          | _ => Option.none)
        (match ev with
          | .dict _ => (pyGet ev "message").map pyStr
          | _ => Option.some (pyStr ev))
        (Option.some httpStatus)
      let tradeLogs := if s.hasLogger && is_trade then
        [{ action := tradeActionName method
           request_params := params
           api_method := method
           error := Option.some errDict
           environment := s.environment
           base_url := s.base_url } ] else []
      let apiLogs := if s.hasLogger && !is_trade then
        [{ event := "api_error"
           api_method := method
           request_params := params
           error := Option.some errDict
           environment := s.environment
           base_url := s.base_url } ] else []
      -- `raise error` is caught by the `except`; `str(e)` starts with
      -- `"API Error:"`, so the transport-error log call is suppressed.
      { session := s, outcome := .error e, authLogs := hdr.logs,
        tradeLogs := tradeLogs, apiLogs := apiLogs }
    | .parsed httpStatus (.neither raw) =>
      let emsg := "Unexpected response: " ++ pyStr raw
      let e : PyExn := { ty := "Exception", msg := emsg, respStatus := Option.none }
      let errDict := format_error (Option.some (e.ty, e.msg))
        Option.none Option.none (Option.some httpStatus)
      let tradeLogs := if s.hasLogger && is_trade then
        [{ action := tradeActionName method
           request_params := params
           api_method := method
           error := Option.some errDict
           environment := s.environment
           base_url := s.base_url } ] else []
      let apiLogs := if s.hasLogger && !is_trade then
        [{ event := "api_error"
           api_method := method
           request_params := params
           error := Option.some errDict
           environment := s.environment
           base_url := s.base_url } ] else []
      -- suppressed in the `except` clause, as above
      { session := s, outcome := .error e, authLogs := hdr.logs,
        tradeLogs := tradeLogs, apiLogs := apiLogs }
    | .raised ty msg respStatus =>
      let e : PyExn := { ty := ty, msg := msg, respStatus := respStatus }
      let suppressed := listStarts "API Error:".data msg.data ||
        listStarts "Unexpected response:".data msg.data
      let errDict := format_error (Option.some (ty, msg))
        Option.none Option.none respStatus
      let tradeLogs := if s.hasLogger && !suppressed && is_trade then
        [{ action := tradeActionName method
           request_params := params
           api_method := method
           error := Option.some errDict
           environment := s.environment
           base_url := s.base_url } ] else []
      let apiLogs := if s.hasLogger && !suppressed && !is_trade then
        [{ event := "api_error"
           api_method := method
           request_params := params
           error := Option.some errDict
           environment := s.environment
           base_url := s.base_url } ] else []
      { session := s, outcome := .error e, authLogs := hdr.logs,
        tradeLogs := tradeLogs, apiLogs := apiLogs }

/-! ## CredentialSource (`credentials_manager.py`)

The file system and process environment are explicit inputs; the mutable
`client_id` / `client_secret` fields of the manager are threaded as state. -/

/-- The mutable fields of a `CredentialsManager`. -/
structure CMState where
  client_id : Option String
  client_secret : Option String
deriving DecidableEq

/-- The external sources `load` consults, in its priority order. -/
structure CredEnv where
  jsonExists : Bool
  /-- Here `None` models a `json.JSONDecodeError` / IO exception; otherwise the
  `creds.get('client_id')` / `creds.get('client_secret')` values. -/
  jsonParse : Option (Option String × Option String)
  envClientId : Option String
  envClientSecret : Option String
  dotenvExists : Bool
  dotenvLines : List String

/-- Python `str.strip(chars)`: remove leading and trailing characters drawn
from `cs`. -/
def pyStrip (cs : List Char) (s : String) : String :=
  ⟨((s.data.dropWhile (· ∈ cs)).reverse.dropWhile (· ∈ cs)).reverse⟩

/-- The Python whitespace set stripped by `str.strip()`. -/
def wsChars : List Char := [' ', '\t', '\n', '\r', Char.ofNat 11, Char.ofNat 12]

/-- Model of `CredentialsManager.load_from_json`. -/
def load_from_json (st : CMState) (env : CredEnv) : CMState × Bool :=
  if !env.jsonExists then (st, false)
  else match env.jsonParse with
    | Option.none => (st, false)
    | Option.some (cid, csec) =>
      let st' : CMState := { client_id := cid, client_secret := csec }
      (st', truthyOptStr cid && truthyOptStr csec)

/-- Model of `CredentialsManager.load_from_env` (unconditionally overwrites both
fields from the environment). -/
def load_from_env (_st : CMState) (env : CredEnv) : CMState × Bool :=
  let st' : CMState :=
    { client_id := env.envClientId, client_secret := env.envClientSecret }
  (st', truthyOptStr env.envClientId && truthyOptStr env.envClientSecret)

/-- Processing of one `.env` line inside `load_from_dotenv`. -/
def dotenvLine (st : CMState) (line : String) : CMState :=
  let l := pyStrip wsChars line
  if truthyStr l && !(listStarts "#".data l.data) then
    if l.data.contains '=' then
      let key := pyStrip wsChars ⟨l.data.takeWhile (fun c => c ≠ '=')⟩
      let value := pyStrip ['\'']
        (pyStrip ['"']
          (pyStrip wsChars ⟨(l.data.dropWhile (fun c => c ≠ '=')).drop 1⟩))
      if key = "DERIBIT_CLIENT_ID" then { st with client_id := Option.some value }
      else if key = "DERIBIT_CLIENT_SECRET" then
        { st with client_secret := Option.some value }
      else st
    else st
  else st

/-- Model of `CredentialsManager.load_from_dotenv`. -/
def load_from_dotenv (st : CMState) (env : CredEnv) : CMState × Bool :=
  if !env.dotenvExists then (st, false)
  else
    let st' := env.dotenvLines.foldl dotenvLine st
    (st', truthyOptStr st'.client_id && truthyOptStr st'.client_secret)

/-- Model of `CredentialsManager.load` with `interactive=False`: the JSON file, the
environment and the `.env` file in order; `(None, None)` when all fail. -/
def load (st : CMState) (env : CredEnv) :
    CMState × (Option String × Option String) :=
  let r1 := load_from_json st env
  if r1.2 then (r1.1, (r1.1.client_id, r1.1.client_secret))
  else
    let r2 := load_from_env r1.1 env
    if r2.2 then (r2.1, (r2.1.client_id, r2.1.client_secret))
    else
      let r3 := load_from_dotenv r2.1 env
      if r3.2 then (r3.1, (r3.1.client_id, r3.1.client_secret))
      else (r3.1, (Option.none, Option.none))

/-! ## Helper lemmas -/

theorem truthyStr_iff (s : String) : truthyStr s = true ↔ s ≠ "" := by
  unfold truthyStr
  rw [Bool.not_eq_true']
  cases s with
  | mk data =>
    constructor
    · intro h hs
      rw [show (String.mk data) = ("" : String) from hs] at h
      simp [List.isEmpty] at h
    · intro h
      cases data with
      | nil => exact absurd rfl h
      | cons c cs => rfl

theorem truthyOptStr_iff (o : Option String) :
    truthyOptStr o = true ↔ ∃ a, o = Option.some a ∧ a ≠ "" := by
  cases o with
  | none => simp [truthyOptStr]
  | some a => simp [truthyOptStr, truthyStr_iff]

/-! ## Claim theorems -/

/-- Claim C5: For every session holding both a (truthy) access token and a
(truthy) expiry instant, `is_token_valid(buffer)` returns `false` exactly
when `now ≥ token_expiry - buffer` and `true` otherwise; in particular a
token expiring in exactly `buffer` seconds is already treated as needing
refresh (the comparison fails safe toward refreshing early). -/
theorem is_token_valid_iff_before_buffered_expiry
    (s : Session) (now buffer e : Int)
    (htok : truthyOptStr s.access_token = true)
    (hexp : s.token_expiry = Option.some e) (he : e ≠ 0) :
    (is_token_valid s now buffer = false ↔ e - buffer ≤ now) ∧
    is_token_valid s (e - buffer) buffer = false := by
  have hval : ∀ n : Int, is_token_valid s n buffer = decide (n < e - buffer) := by
    intro n
    unfold is_token_valid
    rw [hexp]
    simp [truthyOptInt, htok, he]
  constructor
  · rw [hval now]
    simp only [decide_eq_false_iff_not]
    omega
  · rw [hval (e - buffer)]
    simp

/-- Witness for `is_token_valid_iff_before_buffered_expiry` at a concrete
session: expiry 1000, buffer 60, queried at 940 (the exact boundary). -/
theorem is_token_valid_iff_before_buffered_expiry_witness :
    (is_token_valid
      { client_id := "abcd1234", client_secret := "s3cr3t", test_mode := true,
        hasLogger := false, credentials_source := Option.none,
        access_token := Option.some "tok", refresh_token := Option.some "r",
        token_expiry := Option.some 1000, scope := Option.none }
      940 60 = false ↔ (1000 : Int) - 60 ≤ 940) ∧
    is_token_valid
      { client_id := "abcd1234", client_secret := "s3cr3t", test_mode := true,
        hasLogger := false, credentials_source := Option.none,
        access_token := Option.some "tok", refresh_token := Option.some "r",
        token_expiry := Option.some 1000, scope := Option.none }
      (1000 - 60) 60 = false :=
  is_token_valid_iff_before_buffered_expiry _ 940 60 1000 (by decide) rfl
    (by decide)

/-- Claim C8: `refresh_access_token` on a session without a (truthy) refresh
token raises immediately: no transport request is issued, no log is written,
and the session state is unchanged. -/
theorem refresh_without_token_is_inert (s : Session) (now : Int)
    (t : AuthTransport) (h : truthyOptStr s.refresh_token = false) :
    refresh_access_token s now t =
      { session := s
        outcome := .error
          { ty := "Exception"
            msg := "No refresh token available. Authenticate first."
            respStatus := Option.none }
        logs := []
        requests := [] } := by
  unfold refresh_access_token
  rw [h]
  rfl

/-- Witness for `refresh_without_token_is_inert`: a freshly constructed
session (no refresh token) with a transport response standing by. -/
theorem refresh_without_token_is_inert_witness :
    refresh_access_token (initSession "abcd1234" "s3cr3t" true true
      (Option.some "direct_parameters")) 500
      (.parsed 200 (.withResult
        { access_token := "tok", refresh_token := "r", expires_in := 900,
          scope := "session:default" })) =
      { session := initSession "abcd1234" "s3cr3t" true true
          (Option.some "direct_parameters")
        outcome := .error
          { ty := "Exception"
            msg := "No refresh token available. Authenticate first."
            respStatus := Option.none }
        logs := []
        requests := [] } :=
  refresh_without_token_is_inert _ 500 _ rfl

/-- Claim C2, evidentiary theorem for the divergence: an
`authenticate_credentials` call with a logger attached whose response parses
but carries no `"result"` key writes **two** `auth_failure`/`error` log
entries before the error reaches the caller, not one: the API-error branch
logs once, and the `except` clause's guard
`not isinstance(e, Exception.__class__)` compares against the metaclass
`type`, is always true for exception instances, and so logs the same failure
again. -/
theorem auth_api_error_logs_twice :
    ((authenticate_credentials
        { client_id := "abcd1234", client_secret := "topsecret",
          test_mode := true, hasLogger := true,
          credentials_source := Option.some "direct_parameters",
          access_token := Option.none, refresh_token := Option.none,
          token_expiry := Option.none, scope := Option.none }
        1000
        (.parsed 200 (.withoutResult (Option.some
          { code := Option.some 13004,
            message := Option.some "invalid_credentials" })))
        "session:default").logs.filter
        (fun l => l.event == "auth_failure" && l.status == "error")).length
      = 2 := by
  rfl

/-- Claim C9, counterexample: `log_api` with the empty-list response `[]`
(length 0, so the claim demands `result_count = 0`) records **no** response
summary at all, because `if response:` is false for an empty list; and a
string response (a Python sequence of length 2) is counted as `1`, not its
length. -/
theorem log_api_count_counterexample :
    ((log_api "2026-10-12T00:00:00.000+00:00" "log-1"
        { event := "get_positions", api_method := "private/get_positions",
          request_params := PyVal.dict [("currency", PyVal.str "BTC")],
          response := Option.some (PyVal.list []) }).response = Option.none) ∧
    ((log_api "2026-10-12T00:00:00.000+00:00" "log-2"
        { event := "get_ticker", api_method := "public/ticker",
          request_params := PyVal.dict [("instrument_name", PyVal.str "BTC-PERPETUAL")],
          response := Option.some (PyVal.str "ok") }).response =
      Option.some { result_count := 1, raw_response := PyVal.str "ok" }) ∧
    ("ok" : String).data.length = 2 :=
  ⟨rfl, rfl, rfl⟩

/-- The count the API-log claim specifies: list length for a list response,
`1` for anything else. -/
def resultCountSpec : PyVal → Nat
  | .list xs => xs.length
  | _ => 1

/-- Claim C9, amended: For every **truthy** response payload passed to
`log_api`, the written entry records `result_count` equal to the length of
the response when it is a list and `1` otherwise, alongside the raw payload;
a falsy response (`None`, `[]`, `{}`, `""`, `0`, `False`) produces no
response summary. -/
theorem log_api_result_count (tsIso logId : String) (i : ApiLogInput)
    (resp : PyVal) (hresp : i.response = Option.some resp)
    (htruthy : pyTruthy resp = true) :
    (log_api tsIso logId i).response = Option.some
      { result_count := resultCountSpec resp, raw_response := resp } := by
  unfold log_api
  rw [hresp]
  simp only [htruthy, if_true]
  cases resp <;> rfl

/-- Witness for `log_api_result_count`: a two-element list response is
recorded with `result_count = 2`. -/
theorem log_api_result_count_witness :
    (log_api "2026-10-12T00:00:00.000+00:00" "log-3"
        { event := "get_positions", api_method := "private/get_positions",
          request_params := PyVal.dict [("currency", PyVal.str "BTC")],
          response := Option.some (PyVal.list [PyVal.int 1, PyVal.int 2]) }).response =
      Option.some
        (⟨resultCountSpec (PyVal.list [PyVal.int 1, PyVal.int 2]),
          PyVal.list [PyVal.int 1, PyVal.int 2]⟩ : ApiSummary) :=
  log_api_result_count _ _ _ (PyVal.list [PyVal.int 1, PyVal.int 2]) rfl rfl

/-- The paired-fields invariant of a session: the access token and the
expiry instant are both present or both absent. -/
def tokenPairInv (s : Session) : Prop :=
  s.access_token.isSome ↔ s.token_expiry.isSome

/-- The session states reachable through the public operations: construction,
the two authentication flows, token refresh, and `get_headers` (whether each
succeeds or raises is determined by the transport outcome argument). -/
inductive Reachable : Session → Prop where
  | init (cid csec : String) (tm lg : Bool) (src : Option String) :
      Reachable (initSession cid csec tm lg src)
  | authCred (s : Session) (now : Int) (t : AuthTransport) (scope : String) :
      Reachable s → Reachable (authenticate_credentials s now t scope).session
  | authSig (s : Session) (now : Int) (nonce : String) (t : AuthTransport)
      (scope data : String) :
      Reachable s →
      Reachable (authenticate_signature s now nonce t scope data).session
  | refresh (s : Session) (now : Int) (t : AuthTransport) :
      Reachable s → Reachable (refresh_access_token s now t).session
  | headers (s : Session) (now : Int) (t : AuthTransport) :
      Reachable s → Reachable (get_headers s now t).session

theorem authCommon_tokenPairInv (s : Session) (now : Int) (scope : String)
    (req : AuthReqParams) (ev mth : String) (t : AuthTransport)
    (h : tokenPairInv s) :
    tokenPairInv (authCommon s now scope req ev mth t).session := by
  cases t with
  | parsed st b =>
    cases b with
    | withResult r => simp [authCommon, tokenPairInv]
    | withoutResult err => simpa [authCommon] using h
  | raised ty msg rs => simpa [authCommon] using h

theorem refresh_tokenPairInv (s : Session) (now : Int) (t : AuthTransport)
    (h : tokenPairInv s) :
    tokenPairInv (refresh_access_token s now t).session := by
  unfold refresh_access_token
  by_cases hr : truthyOptStr s.refresh_token
  · simp only [hr, Bool.not_true, Bool.false_eq_true, if_false]
    cases t with
    | parsed st b =>
      cases b with
      | withResult r => simp [tokenPairInv]
      | withoutResult err => simpa using h
    | raised ty msg rs => simpa using h
  · simp only [Bool.not_eq_true] at hr
    simp only [hr, Bool.not_false, if_true]
    exact h

theorem get_headers_tokenPairInv (s : Session) (now : Int) (t : AuthTransport)
    (h : tokenPairInv s) :
    tokenPairInv (get_headers s now t).session := by
  unfold get_headers
  split
  · exact h
  · split
    · have hrf := refresh_tokenPairInv s now t h
      cases hout : (refresh_access_token s now t).outcome with
      | error e => simpa [hout] using hrf
      | ok r => simpa [hout] using hrf
    · exact h

/-- Claim C6: In every reachable session state — after construction, after the
authentication flows (success or failure), after `refresh_access_token`, and
after `get_headers` — `access_token` and `token_expiry` are either both set
or both unset. -/
theorem reachable_token_expiry_paired (s : Session) (h : Reachable s) :
    s.access_token.isSome ↔ s.token_expiry.isSome := by
  induction h with
  | init cid csec tm lg src => simp [initSession]
  | authCred s now t scope _ ih => exact authCommon_tokenPairInv _ _ _ _ _ _ _ ih
  | authSig s now nonce t scope data _ ih =>
    exact authCommon_tokenPairInv _ _ _ _ _ _ _ ih
  | refresh s now t _ ih => exact refresh_tokenPairInv _ _ _ ih
  | headers s now t _ ih => exact get_headers_tokenPairInv _ _ _ ih

/-- Witness for `reachable_token_expiry_paired`: the state after a fresh
construction followed by a successful credentials authentication. -/
theorem reachable_token_expiry_paired_witness :
    ((authenticate_credentials
        (initSession "abcd1234" "s3cr3t" true true
          (Option.some "direct_parameters")) 1000
        (.parsed 200 (.withResult
          { access_token := "tok", refresh_token := "r", expires_in := 900,
            scope := "session:default" }))
        "session:default").session.access_token.isSome ↔
      (authenticate_credentials
        (initSession "abcd1234" "s3cr3t" true true
          (Option.some "direct_parameters")) 1000
        (.parsed 200 (.withResult
          { access_token := "tok", refresh_token := "r", expires_in := 900,
            scope := "session:default" }))
        "session:default").session.token_expiry.isSome) :=
  reachable_token_expiry_paired _
    (Reachable.authCred _ 1000 _ "session:default"
      (Reachable.init "abcd1234" "s3cr3t" true true
        (Option.some "direct_parameters")))

theorem refresh_preserves_hasLogger (s : Session) (now : Int)
    (t : AuthTransport) :
    (refresh_access_token s now t).session.hasLogger = s.hasLogger := by
  unfold refresh_access_token
  by_cases hr : truthyOptStr s.refresh_token
  · simp only [hr, Bool.not_true, Bool.false_eq_true, if_false]
    cases t with
    | parsed st b => cases b with
      | withResult r => rfl
      | withoutResult err => rfl
    | raised ty msg rs => rfl
  · simp only [Bool.not_eq_true] at hr
    simp only [hr, Bool.not_false, if_true]

theorem get_headers_preserves_hasLogger (s : Session) (now : Int)
    (t : AuthTransport) :
    (get_headers s now t).session.hasLogger = s.hasLogger := by
  unfold get_headers
  split
  · rfl
  · split
    · cases hout : (refresh_access_token s now t).outcome with
      | error e => simpa [hout] using refresh_preserves_hasLogger s now t
      | ok r => simpa [hout] using refresh_preserves_hasLogger s now t
    · rfl

theorem tradeMethod_isPrivate (method : String) (hm : method ∈ tradeMethods) :
    listStarts "private/".data method.data = true := by
  fin_cases hm <;> decide

theorem tradeMethod_contains (method : String) (hm : method ∈ tradeMethods) :
    tradeMethods.contains method = true := by
  fin_cases hm <;> decide

/-- Claim C3: A `_make_request` dispatch of a trade-set method with a logger
attached, whose response carries an API-level error object, writes exactly
one trades-category entry, that entry has status `error`, and no
api-category entry is written: the later transport-error log call is
suppressed because the raised exception's message starts with
`"API Error:"`. -/
theorem trade_api_error_single_trade_log
    (s : Session) (method : String) (params : PyVal) (now : Int)
    (hdrT : AuthTransport) (httpStatus : Int) (ev : PyVal)
    (tsIso logId : String)
    (hlog : s.hasLogger = true)
    (hm : method ∈ tradeMethods)
    (hhdr : (get_headers s now hdrT).outcome.isOk = true) :
    ((_make_request s method params now hdrT
        (.parsed httpStatus (.withError ev))).tradeLogs.map
      (fun a => (log_trade tsIso logId a).status)) = ["error"] ∧
    (_make_request s method params now hdrT
        (.parsed httpStatus (.withError ev))).apiLogs = [] := by
  have hpriv := tradeMethod_isPrivate method hm
  have hcont := tradeMethod_contains method hm
  have hlog' : (get_headers s now hdrT).session.hasLogger = true := by
    rw [get_headers_preserves_hasLogger]; exact hlog
  unfold _make_request
  simp only [hpriv, if_true]
  cases hout : (get_headers s now hdrT).outcome with
  | error e => rw [hout] at hhdr; simp [Except.isOk, Except.toBool] at hhdr
  | ok v =>
    simp only [hout, hlog', hcont, Bool.true_and, Bool.and_self, if_true,
      Bool.not_true, Bool.false_eq_true, if_false]
    exact ⟨by simp [log_trade], by simp⟩

/-- Witness for `trade_api_error_single_trade_log`: a `private/buy` dispatch
with a valid token whose response is `{"error": {...}}`. -/
theorem trade_api_error_single_trade_log_witness :
    ((_make_request
        { client_id := "abcd1234", client_secret := "s3cr3t", test_mode := true,
          hasLogger := true, credentials_source := Option.none,
          access_token := Option.some "tok", refresh_token := Option.some "r",
          token_expiry := Option.some 1000000, scope := Option.some "trade:read_write" }
        "private/buy" (PyVal.dict [("instrument_name", PyVal.str "BTC-PERPETUAL")])
        0 (.raised "ConnectionError" "unused" Option.none)
        (.parsed 400 (.withError (PyVal.dict
          [("code", PyVal.int 10009), ("message", PyVal.str "not_enough_funds")])))).tradeLogs.map
      (fun a => (log_trade "2026-10-12T00:00:00.000+00:00" "log-4" a).status)) = ["error"] ∧
    (_make_request
        { client_id := "abcd1234", client_secret := "s3cr3t", test_mode := true,
          hasLogger := true, credentials_source := Option.none,
          access_token := Option.some "tok", refresh_token := Option.some "r",
          token_expiry := Option.some 1000000, scope := Option.some "trade:read_write" }
        "private/buy" (PyVal.dict [("instrument_name", PyVal.str "BTC-PERPETUAL")])
        0 (.raised "ConnectionError" "unused" Option.none)
        (.parsed 400 (.withError (PyVal.dict
          [("code", PyVal.int 10009), ("message", PyVal.str "not_enough_funds")])))).apiLogs = [] :=
  trade_api_error_single_trade_log _ "private/buy" _ 0 _ 400 _ _ _
    rfl (by decide) rfl

/-- A session whose token expired long ago but which holds a refresh token. -/
def sessionWithStaleToken : Session :=
  { client_id := "abcd1234", client_secret := "s3cr3t", test_mode := true,
    hasLogger := false, credentials_source := Option.none,
    access_token := Option.some "oldtok", refresh_token := Option.some "refr",
    token_expiry := Option.some 100, scope := Option.some "session:default" }

/-- A refresh response granting only 30 seconds of validity. -/
def refreshGrantWithinBuffer : AuthTransport :=
  .parsed 200 (.withResult
    { access_token := "newtok", refresh_token := "refr2", expires_in := 30,
      scope := "session:default" })

/-- Claim C4, counterexample: `get_headers` at time 1000 on a stale session
refreshes, the server grants `expires_in = 30`, and the call returns a header
map even though `now = 1000 ≥ token_expiry - 60 = 970`: the code does not
re-check validity after the refresh. -/
theorem get_headers_within_buffer_counterexample :
    (get_headers sessionWithStaleToken 1000 refreshGrantWithinBuffer).outcome.isOk
      = true ∧
    (get_headers sessionWithStaleToken 1000 refreshGrantWithinBuffer).session.token_expiry
      = Option.some 1030 ∧
    ¬ ((1000 : Int) < 1030 - 60) :=
  ⟨rfl, rfl, by decide⟩

theorem refresh_ok_expiry (s : Session) (now : Int) (t : AuthTransport)
    (h : (refresh_access_token s now t).outcome.isOk = true) :
    ∃ st r, t = AuthTransport.parsed st (AuthBody.withResult r) ∧
      (refresh_access_token s now t).session.token_expiry =
        Option.some (now + r.expires_in) := by
  unfold refresh_access_token at h ⊢
  by_cases hr : truthyOptStr s.refresh_token = true
  · simp only [hr, Bool.not_true, Bool.false_eq_true, if_false] at h ⊢
    cases t with
    | parsed st b =>
      cases b with
      | withResult r => exact ⟨st, r, rfl, rfl⟩
      | withoutResult err => simp [Except.isOk, Except.toBool] at h
    | raised ty msg rs => simp [Except.isOk, Except.toBool] at h
  · simp only [Bool.not_eq_true] at hr
    simp only [hr, Bool.not_false, if_true] at h
    simp [Except.isOk, Except.toBool] at h

/-- Claim C4, amended: Whenever `get_headers` returns a header map, the
session's token satisfies `now < token_expiry - 60` at return **provided**
any refresh grant consumed by the call carries `expires_in > 60`; with a
grant of `expires_in ≤ 60` the call can return a token already within the
buffer (see the counterexample). -/
theorem get_headers_token_outside_buffer (s : Session) (now : Int)
    (t : AuthTransport)
    (hok : (get_headers s now t).outcome.isOk = true)
    (hgrant : ∀ st r, t = AuthTransport.parsed st (AuthBody.withResult r) →
      60 < r.expires_in) :
    ∃ e, (get_headers s now t).session.token_expiry = Option.some e ∧
      now < e - 60 := by
  unfold get_headers at hok ⊢
  by_cases hv : is_token_valid s now = true
  · rw [if_pos hv] at hok ⊢
    unfold is_token_valid at hv
    by_cases h1 : (!truthyOptStr s.access_token || !truthyOptInt s.token_expiry)
        = true
    · rw [if_pos h1] at hv; exact absurd hv (by simp)
    · rw [if_neg h1] at hv
      cases hexp : s.token_expiry with
      | none =>
        exfalso
        apply h1
        rw [hexp]
        simp [truthyOptInt]
      | some e2 =>
        refine ⟨e2, rfl, ?_⟩
        rw [hexp] at hv
        simpa using hv
  · rw [if_neg hv] at hok ⊢
    by_cases hr : truthyOptStr s.refresh_token = true
    · rw [if_pos hr] at hok ⊢
      cases hout : (refresh_access_token s now t).outcome with
      | error e0 =>
        simp only [hout] at hok
        simp [Except.isOk, Except.toBool] at hok
      | ok r0 =>
        have hiso : (refresh_access_token s now t).outcome.isOk = true := by
          rw [hout]; rfl
        obtain ⟨st0, r1, ht, hexp⟩ := refresh_ok_expiry s now t hiso
        simp only [hout]
        refine ⟨now + r1.expires_in, ?_, ?_⟩
        · simpa using hexp
        · have := hgrant st0 r1 ht
          omega
    · rw [if_neg hr] at hok
      simp [Except.isOk, Except.toBool] at hok

/-- Witness for `get_headers_token_outside_buffer`: a still-valid token is
returned untouched (the transport outcome is never consulted, so the grant
hypothesis is vacuous). -/
theorem get_headers_token_outside_buffer_witness :
    ∃ e, (get_headers
        { client_id := "abcd1234", client_secret := "s3cr3t", test_mode := true,
          hasLogger := false, credentials_source := Option.none,
          access_token := Option.some "tok", refresh_token := Option.some "r",
          token_expiry := Option.some 1000000, scope := Option.none }
        0 (.raised "ConnectionError" "unused" Option.none)).session.token_expiry
      = Option.some e ∧ (0 : Int) < e - 60 :=
  get_headers_token_outside_buffer _ 0 _ rfl
    (fun _ _ h => AuthTransport.noConfusion h)

theorem load_from_json_true (st : CMState) (env : CredEnv)
    (h : (load_from_json st env).2 = true) :
    truthyOptStr (load_from_json st env).1.client_id = true ∧
    truthyOptStr (load_from_json st env).1.client_secret = true := by
  unfold load_from_json at h ⊢
  cases henv : env.jsonExists with
  | false => simp [henv] at h
  | true =>
    simp only [Bool.not_true, Bool.false_eq_true, if_false] at h ⊢
    cases hp : env.jsonParse with
    | none => simp [hp] at h
    | some p =>
      obtain ⟨cid, csec⟩ := p
      simp only [hp] at h ⊢
      simpa [henv] using h

theorem load_from_env_true (st : CMState) (env : CredEnv)
    (h : (load_from_env st env).2 = true) :
    truthyOptStr (load_from_env st env).1.client_id = true ∧
    truthyOptStr (load_from_env st env).1.client_secret = true := by
  unfold load_from_env at h ⊢
  simpa using h

theorem load_from_dotenv_true (st : CMState) (env : CredEnv)
    (h : (load_from_dotenv st env).2 = true) :
    truthyOptStr (load_from_dotenv st env).1.client_id = true ∧
    truthyOptStr (load_from_dotenv st env).1.client_secret = true := by
  unfold load_from_dotenv at h ⊢
  cases henv : env.dotenvExists with
  | false => simp [henv] at h
  | true => simpa [henv] using h

/-- Claim C10: `CredentialsManager.load` with `interactive=False` returns
either a pair in which both credentials are present and non-empty, or
`(None, None)`; never exactly one of the two. -/
theorem load_nonInteractive_all_or_nothing (st : CMState) (env : CredEnv) :
    (load st env).2 = (Option.none, Option.none) ∨
    ∃ a b, (load st env).2 = (Option.some a, Option.some b) ∧
      a ≠ "" ∧ b ≠ "" := by
  unfold load
  by_cases b1 : (load_from_json st env).2 = true
  · right
    obtain ⟨h1, h2⟩ := load_from_json_true st env b1
    rw [truthyOptStr_iff] at h1 h2
    obtain ⟨a, ha, ha'⟩ := h1
    obtain ⟨b, hb, hb'⟩ := h2
    exact ⟨a, b, by simp [b1, ha, hb], ha', hb'⟩
  · by_cases b2 : (load_from_env (load_from_json st env).1 env).2 = true
    · right
      obtain ⟨h1, h2⟩ := load_from_env_true (load_from_json st env).1 env b2
      rw [truthyOptStr_iff] at h1 h2
      obtain ⟨a, ha, ha'⟩ := h1
      obtain ⟨b, hb, hb'⟩ := h2
      exact ⟨a, b, by simp [b1, b2, ha, hb], ha', hb'⟩
    · by_cases b3 : (load_from_dotenv
          (load_from_env (load_from_json st env).1 env).1 env).2 = true
      · right
        obtain ⟨h1, h2⟩ := load_from_dotenv_true
          (load_from_env (load_from_json st env).1 env).1 env b3
        rw [truthyOptStr_iff] at h1 h2
        obtain ⟨a, ha, ha'⟩ := h1
        obtain ⟨b, hb, hb'⟩ := h2
        exact ⟨a, b, by simp [b1, b2, b3, ha, hb], ha', hb'⟩
      · left
        simp [b1, b2, b3]

theorem splitNlAux_no_newline (a : List Char) (acc : List Char)
    (h : '\n' ∉ a) : splitNlAux a acc = [acc.reverse ++ a] := by
  induction a generalizing acc with
  | nil => simp [splitNlAux]
  | cons c cs ih =>
    have hc : ¬ c = '\n' := fun hh => h (hh ▸ List.mem_cons_self c cs)
    have h' : '\n' ∉ cs := fun hmem => h (List.mem_cons_of_mem c hmem)
    simp [splitNlAux, hc, ih (c :: acc) h']

theorem splitNlAux_newline_split (a rest acc : List Char) (h : '\n' ∉ a) :
    splitNlAux (a ++ '\n' :: rest) acc =
      (acc.reverse ++ a) :: splitNlAux rest [] := by
  induction a generalizing acc with
  | nil => simp [splitNlAux]
  | cons c cs ih =>
    have hc : ¬ c = '\n' := fun hh => h (hh ▸ List.mem_cons_self c cs)
    have h' : '\n' ∉ cs := fun hmem => h (List.mem_cons_of_mem c hmem)
    simp [splitNlAux, hc, ih (c :: acc) h']

/-- Claim C7: `_calculate_signature` returns the hex encoding of HMAC-SHA256
keyed by the client secret over `str(timestamp) + "\n" + nonce + "\n" + data`
— exactly three newline-joined fields (for newline-free fields), an empty
`data` still producing a trailing empty segment — and is deterministic (the
embedding is a pure function, so two calls on identical inputs are the same
term). -/
theorem calculate_signature_spec (secret : String) (timestamp : Int)
    (nonce data : String)
    (ht : '\n' ∉ (toString timestamp).data)
    (hn : '\n' ∉ nonce.data) (hd : '\n' ∉ data.data) :
    calculate_signature secret timestamp nonce data =
      hexDigest (hmacSha256 (utf8Encode secret)
        (utf8Encode (string_to_sign timestamp nonce data))) ∧
    string_to_sign timestamp nonce data =
      toString timestamp ++ "\n" ++ nonce ++ "\n" ++ data ∧
    splitNl (string_to_sign timestamp nonce data) =
      [(toString timestamp).data, nonce.data, data.data] ∧
    splitNl (string_to_sign timestamp nonce "") =
      [(toString timestamp).data, nonce.data, []] ∧
    calculate_signature secret timestamp nonce data =
      calculate_signature secret timestamp nonce data := by
  have hsplit : ∀ d : String, '\n' ∉ d.data →
      splitNl (string_to_sign timestamp nonce d) =
        [(toString timestamp).data, nonce.data, d.data] := by
    intro d hd'
    unfold splitNl string_to_sign
    rw [strData_append, strData_append, strData_append, strData_append]
    have hnl : ("\n" : String).data = ['\n'] := rfl
    simp only [hnl, List.append_assoc, List.singleton_append, List.cons_append]
    rw [splitNlAux_newline_split _ _ _ ht]
    simp only [List.nil_append, List.reverse_nil]
    rw [splitNlAux_newline_split _ _ _ hn]
    simp only [List.nil_append, List.reverse_nil]
    rw [splitNlAux_no_newline _ _ hd']
    simp
  refine ⟨rfl, rfl, hsplit data hd, ?_, rfl⟩
  simpa using hsplit "" (by simp)

/-- Witness for `calculate_signature_spec` at the spec's concrete scenario
`sign("secret123", 1700000000000, "ab12cd34", "")`. -/
theorem calculate_signature_spec_witness :
    calculate_signature "secret123" 1700000000000 "ab12cd34" "" =
      hexDigest (hmacSha256 (utf8Encode "secret123")
        (utf8Encode (string_to_sign 1700000000000 "ab12cd34" ""))) ∧
    splitNl (string_to_sign 1700000000000 "ab12cd34" "") =
      [(toString (1700000000000 : Int)).data, "ab12cd34".data, []] := by
  have T := calculate_signature_spec "secret123" 1700000000000 "ab12cd34" ""
    (by decide) (by decide) (by decide)
  exact ⟨T.1, T.2.2.2.1⟩


/-- A session authenticating with a logger attached; its client secret is
the literal `"topsecret"`. -/
def secretLeakSession : Session :=
  { client_id := "abcd1234", client_secret := "topsecret", test_mode := true,
    hasLogger := true, credentials_source := Option.some "direct_parameters",
    access_token := Option.none, refresh_token := Option.none,
    token_expiry := Option.none, scope := Option.none }

/-- The transport raising on HTTP 401 during `authenticate_credentials`:
`str(e)` of a `requests` `HTTPError` embeds the full request URL, query
parameters — `client_id` and `client_secret` included. -/
def secretLeakTransport : AuthTransport :=
  .raised "HTTPError"
    "401 Client Error: Unauthorized for url: https://test.deribit.com/api/v2/public/auth?grant_type=client_credentials&client_id=abcd1234&client_secret=topsecret&scope=session:default"
    (Option.some 401)

/-- The same session holding tokens, for the refresh-path leak. -/
def refreshLeakSession : Session :=
  { secretLeakSession with
      access_token := Option.some "tok"
      refresh_token := Option.some "refreshtok"
      token_expiry := Option.some 100 }

/-- The transport raising on HTTP 401 during `refresh_access_token`: the
embedded URL carries the `refresh_token` query parameter. -/
def refreshLeakTransport : AuthTransport :=
  .raised "HTTPError"
    "401 Client Error: Unauthorized for url: https://test.deribit.com/api/v2/public/auth?grant_type=refresh_token&refresh_token=refreshtok"
    (Option.some 401)

/-- Claim C1, evidentiary theorem for the divergence: on a transport failure
during `authenticate_credentials` with a logger attached, the `except` branch
logs `format_error(exception=e)` whose `exception_message` is `str(e)`; a
`requests` exception message embeds the full request URL with its query
parameters, so the literal `client_secret` — and the full, unmasked
`client_id` — occur in a string of the serialized auth entry, and on the
refresh path the literal `refresh_token` does.  The logger masks only the
dedicated `client_id`/`access_token` fields and applies no redaction to
error strings, contradicting its own docstring (`client_secret: NEVER
logged`, `refresh_token: NEVER logged`) and the spec's RedactionPolicy. -/
theorem auth_transport_error_leaks_secret :
    (∃ a ∈ (authenticate_credentials secretLeakSession 1000 secretLeakTransport
        "session:default").logs,
      ∃ q ∈ authEntryStrings
          (log_auth "2026-10-12T00:00:00.000+00:00" "log-6" a),
        occursIn ("topsecret" : String).data q.data ∧
        occursIn ("abcd1234" : String).data q.data) ∧
    (∃ a ∈ (refresh_access_token refreshLeakSession 1000
        refreshLeakTransport).logs,
      ∃ q ∈ authEntryStrings
          (log_auth "2026-10-12T00:00:00.000+00:00" "log-7" a),
        occursIn ("refreshtok" : String).data q.data) := by
  decide

end Deribit
